import Mathlib

/-!
Shallow embedding of the SupplyLink shared-order ledger (src/main.py and
src/schemas.py) for verification of the specification claims.

The document store is modelled as a list of shared-order records; Mongo
documents pushed into the `participants` array and the serialized response
payloads are modelled as association lists of string keys and values, so
that field presence and field removal (the pop of the internal identifier)
are directly observable.  Machine integers are Lean `Int` (Python integers
are unbounded).  The pymongo primitives used by the handlers, `find_one`,
`update_one` with a combined increment and array push, and the collection
read behind `get_documents` (from database.py, which is not under src/),
are modelled from their documented contract in the spec, section 6.

The pledge handler itself is embedded faithfully to its failure: line 225
of src/main.py evaluates
`...codec_options.document_class.objectid_class(order_id)`, and under any
standard pymongo client the codec document class is `dict` (or `SON` or
`RawBSONDocument`), none of which has an `objectid_class` attribute, so
the expression raises an uncaught AttributeError before any store access;
the expression sits outside every try block, so FastAPI surfaces the
exception as HTTP 500 and the rest of the handler (the fallback lookup,
the 404, the combined update, the read-after-write) is unreachable.  The
unreachable remainder, lines 226 to 238, is embedded separately under the
name `pledgeHandlerRest` to state what the handler was written to do.
-/

namespace SupplyLink

/-- Scalar values inside a participant document: the handler pushes
`\x7b"name": name, "email": email, "qty": qty\x7d` where `email` may be
the Python `None`, serialized as null. -/
inductive PVal where
  | pvStr (s : String)
  | pvInt (n : Int)
  | pvNull
  deriving DecidableEq, Repr

/-- A participant document: an ordered mapping of field names to values,
mirroring a Python dict with insertion order. -/
abbrev PDoc := List (String × PVal)

/-- Top-level values of a serialized shared-order document; the
`participants` field carries an array of subdocuments. -/
inductive Val where
  | vStr (s : String)
  | vInt (n : Int)
  | vNull
  | vArr (ps : List PDoc)
  deriving DecidableEq, Repr

/-- A serialized shared-order document (association list, insertion order). -/
abbrev Doc := List (String × Val)

/-- A stored SharedOrder record (src/schemas.py, class SharedOrder), with
`oid` the internal store identifier assigned on creation (the Mongo `_id`,
held here as its string form) and `deadline` an opaque timestamp. -/
structure OrderDoc where
  oid : String
  product_id : String
  supplier_id : String
  min_qty : Int
  pledged_qty : Int
  deadline : Int
  participants : List PDoc
  deriving DecidableEq, Repr

/-- The sharedorder collection of the document store. -/
abbrev Store := List OrderDoc

/-- `find_one` on the sharedorder collection by identifier: first document
whose `_id` matches, if any (spec section 6: findOne(collection, idFilter)
returns a document or absent). -/
def findOrder : Store → String → Option OrderDoc
  | [], _ => none
  | o :: rest, orderId =>
      if o.oid == orderId then some o else findOrder rest orderId

/-- `update_one` by identifier: applies `f` to the first document whose
`_id` matches and leaves every other document in place. -/
def updateOne (store : Store) (orderId : String) (f : OrderDoc → OrderDoc) : Store :=
  match store with
  | [] => []
  | o :: rest =>
      if o.oid == orderId then f o :: rest else o :: updateOne rest orderId f

/-- The participant document pushed by the handler on line 235 of
src/main.py: `\x7b"name": name, "email": email, "qty": qty\x7d`, with an
absent email serialized as null. -/
def mkParticipant (name : String) (email : Option String) (qty : Int) : PDoc :=
  [("name", .pvStr name),
   ("email", match email with | some e => .pvStr e | none => .pvNull),
   ("qty", .pvInt qty)]

/-- The single atomic update issued on line 235 of src/main.py:
`$inc` of pledged_qty by qty combined with `$push` of the participant
document onto participants, applied to one document as one operation. -/
def applyPledgeUpdate (o : OrderDoc) (qty : Int) (name : String)
    (email : Option String) : OrderDoc :=
  { o with
    pledged_qty := o.pledged_qty + qty
    participants := o.participants ++ [mkParticipant name email qty] }

/-- Serialization of a stored order to a response document, `_id` first as
the store returns it, the remaining fields in schema order. -/
def orderDoc (o : OrderDoc) : Doc :=
  [("_id", .vStr o.oid),
   ("product_id", .vStr o.product_id),
   ("supplier_id", .vStr o.supplier_id),
   ("min_qty", .vInt o.min_qty),
   ("pledged_qty", .vInt o.pledged_qty),
   ("deadline", .vInt o.deadline),
   ("participants", .vArr o.participants)]

/-- Field lookup in a serialized document (first occurrence of the key). -/
def lookupVal (d : Doc) (k : String) : Option Val :=
  (d.find? (fun kv => kv.1 == k)).map (fun kv => kv.2)

/-- Field lookup in a participant document. -/
def pLookup (p : PDoc) (k : String) : Option PVal :=
  (p.find? (fun kv => kv.1 == k)).map (fun kv => kv.2)

/-- The identifier mapping done on each returned document
(src/main.py lines 218 and 237): `it["id"] = str(it.pop("_id", ""))`,
which removes the internal `_id` key and appends an external `id` key
holding its string form, the empty string when `_id` is absent. -/
def stripId (d : Doc) : Doc :=
  let idStr : String :=
    match lookupVal d "_id" with
    | some (.vStr s) => s
    | _ => ""
  (d.filter (fun kv => kv.1 != "_id")) ++ [("id", .vStr idStr)]

/-- Error outcomes of the pledge endpoint.  `uncaughtAttributeError` is
the unhandled exception raised on line 225 of src/main.py when the filter
expression dereferences `document_class.objectid_class`, an attribute no
pymongo document class has. -/
inductive PledgeError where
  | invalidArgument
  | notFound
  | serviceUnavailable
  | uncaughtAttributeError
  deriving DecidableEq, Repr

/-- HTTP status each error surfaces as: 422 from the FastAPI query
validation `Query(..., ge=1)`, 404 from the explicit HTTPException on line
234 of src/main.py, 500 for an unavailable store, and 500 for the
unhandled exception escaping the handler. -/
def statusOf : PledgeError → Int
  | .invalidArgument => 422
  | .notFound => 404
  | .serviceUnavailable => 500
  | .uncaughtAttributeError => 500

/-- The pledge endpoint, src/main.py lines 221 to 238, as the program
behaves.  The HTTP layer first validates the query parameters: `qty` must
be at least 1 (`Query(..., ge=1)`, rejected with 422 before the handler
body runs), `name` defaults to "Guest" when absent, `email` defaults to
None.  When validation passes, the handler body (with the store handle
available) evaluates the line 225 filter expression
`...codec_options.document_class.objectid_class(order_id)`; no pymongo
document class carries an `objectid_class` attribute, so the expression
raises AttributeError outside every try block, the request dies with
HTTP 500, and no store read or write takes place: the fallback lookup,
the 404 on line 234 and the update on line 235 are unreachable.  The
store is returned alongside the outcome so that the absence of any write
is expressible. -/
def pledge_to_shared_order (store : Store) (orderId : String) (qty : Int)
    (name : Option String) (email : Option String) :
    Store × Except PledgeError Doc :=
  if qty < 1 then
    (store, .error .invalidArgument)
  else
    (store, .error .uncaughtAttributeError)

/-- The handler body of src/main.py from line 226 onward, translated from
the source: the fallback lookup by ObjectId of the path parameter (lines
227 to 232, a malformed or unknown identifier yielding no document), the
404 on line 234, the single combined increment and push update on line
235 and the read-after-write on lines 236 to 238 with `_id` mapped to
`id`.  In the program this code is unreachable: line 225 raises first.
It is embedded to state what the handler was written to do. -/
def pledgeHandlerRest (store : Store) (orderId : String) (qty : Int)
    (name : Option String) (email : Option String) :
    Store × Except PledgeError Doc :=
  match findOrder store orderId with
  | none => (store, .error .notFound)
  | some doc =>
      let store' := updateOne store doc.oid
        (fun o => applyPledgeUpdate o qty (name.getD "Guest") email)
      match findOrder store' doc.oid with
      | none => (store', .error .serviceUnavailable)
      | some updated => (store', .ok (stripId (orderDoc updated)))

/-- The pledge endpoint as it was written to behave: the query validation
followed by the (unreachable) handler remainder.  This is the semantics
the spec describes and the one the program would have if line 225 were
the fallback lookup it duplicates. -/
def pledgeIntended (store : Store) (orderId : String) (qty : Int)
    (name : Option String) (email : Option String) :
    Store × Except PledgeError Doc :=
  if qty < 1 then
    (store, .error .invalidArgument)
  else
    pledgeHandlerRest store orderId qty name email

/-- The list endpoint, src/main.py lines 214 to 219: reads every document
of the sharedorder collection (get_documents with no filter, modelled from
the spec, section 6: find(collection, filter) returns the list of
documents) and maps the internal identifier of each to the external `id`
field.  It issues no write. -/
def list_shared_orders (store : Store) : List Doc :=
  store.map (fun o => stripId (orderDoc o))

/-- Sum of the qty fields across a participants array, the right-hand side
of the ledger invariant. -/
def pledgedSum (ps : List PDoc) : Int :=
  (ps.map (fun p =>
    match pLookup p "qty" with
    | some (.pvInt n) => n
    | _ => 0)).sum

/-- One pledge request as received by the endpoint. -/
structure Req where
  orderId : String
  qty : Int
  name : Option String
  email : Option String
  deriving DecidableEq, Repr

/-- Runs a sequence of pledge requests against the store, each request
taking effect exactly when it succeeds. -/
def runPledges (store : Store) : List Req → Store
  | [] => store
  | r :: rs =>
      match pledge_to_shared_order store r.orderId r.qty r.name r.email with
      | (s', .ok _) => runPledges s' rs
      | (_, .error _) => runPledges store rs

/-- Counts the requests of a sequence that succeed and target the order
with the given identifier, evaluated along the same run. -/
def countSuccesses (store : Store) (target : String) : List Req → Nat
  | [] => 0
  | r :: rs =>
      match pledge_to_shared_order store r.orderId r.qty r.name r.email with
      | (s', .ok _) =>
          (if r.orderId == target then 1 else 0) + countSuccesses s' target rs
      | (_, .error _) => countSuccesses store target rs

/-- Runs a sequence of pledge requests under the intended semantics of the
endpoint (validation plus the unreachable handler remainder). -/
def runPledgesIntended (store : Store) : List Req → Store
  | [] => store
  | r :: rs =>
      match pledgeIntended store r.orderId r.qty r.name r.email with
      | (s', .ok _) => runPledgesIntended s' rs
      | (_, .error _) => runPledgesIntended store rs

/-- Counts the requests of a sequence that would succeed under the
intended semantics and target the order with the given identifier. -/
def countSuccessesIntended (store : Store) (target : String) :
    List Req → Nat
  | [] => 0
  | r :: rs =>
      match pledgeIntended store r.orderId r.qty r.name r.email with
      | (s', .ok _) =>
          (if r.orderId == target then 1 else 0) +
            countSuccessesIntended s' target rs
      | (_, .error _) => countSuccessesIntended store target rs

/-! ### Interleaving model for two concurrent pledges

The handler body of a pledge consists of its lookup phase followed by the
single combined update_one (the `$inc` plus `$push` issued as one store
operation, which the store applies indivisibly).  Two concurrent pledge
requests on the same order are modelled as the four steps lookup and
commit of each request, interleaved in any order that keeps each request
lookup before its own commit.  In the program, each lookup phase begins
by evaluating the line 225 filter expression, which raises an uncaught
AttributeError: the request terminates there with HTTP 500, resolves no
document identifier, and its commit never executes.  `cstep` embeds this
program behavior; `cstepIntended` embeds the behavior the handler was
written to have, in which the lookup resolves the document identifier and
the commit applies the single atomic update. -/

/-- A step of one of the two concurrent pledge requests: the lookup or the
atomic commit of request 1 (qty 10) or request 2 (qty 20). -/
inductive CStep where
  | l1
  | c1
  | l2
  | c2
  deriving DecidableEq, Repr

/-- Shared store plus the document identifier each request has resolved so
far (none before its lookup ran). -/
structure CState where
  store : Store
  r1 : Option String
  r2 : Option String
  deriving DecidableEq, Repr

/-- Effect of one step as the program behaves: the lookup step raises the
uncaught AttributeError of line 225, so the request dies resolving no
identifier, and a commit with no resolved identifier is a no-op (the
request already terminated with HTTP 500 before reaching the update). -/
def cstep (k n1 n2 : String) (e1 e2 : Option String) (st : CState) :
    CStep → CState
  | .l1 => { st with r1 := none }
  | .c1 =>
      match st.r1 with
      | some i =>
          { st with
            store := updateOne st.store i (fun o => applyPledgeUpdate o 10 n1 e1) }
      | none => st
  | .l2 => { st with r2 := none }
  | .c2 =>
      match st.r2 with
      | some i =>
          { st with
            store := updateOne st.store i (fun o => applyPledgeUpdate o 20 n2 e2) }
      | none => st

/-- Effect of one step under the intended semantics: a lookup records the
resolved identifier of the target order; a commit issues the single
combined update for its request (or does nothing when the lookup found no
document, the 404 path). -/
def cstepIntended (k n1 n2 : String) (e1 e2 : Option String) (st : CState) :
    CStep → CState
  | .l1 => { st with r1 := (findOrder st.store k).map (fun o => o.oid) }
  | .c1 =>
      match st.r1 with
      | some i =>
          { st with
            store := updateOne st.store i (fun o => applyPledgeUpdate o 10 n1 e1) }
      | none => st
  | .l2 => { st with r2 := (findOrder st.store k).map (fun o => o.oid) }
  | .c2 =>
      match st.r2 with
      | some i =>
          { st with
            store := updateOne st.store i (fun o => applyPledgeUpdate o 20 n2 e2) }
      | none => st

/-- Runs a schedule of steps as the program behaves. -/
def crun (k n1 n2 : String) (e1 e2 : Option String) (st : CState)
    (sched : List CStep) : CState :=
  sched.foldl (cstep k n1 n2 e1 e2) st

/-- Runs a schedule of steps under the intended semantics. -/
def crunIntended (k n1 n2 : String) (e1 e2 : Option String) (st : CState)
    (sched : List CStep) : CState :=
  sched.foldl (cstepIntended k n1 n2 e1 e2) st

/-- All interleavings of the two requests in which each lookup precedes
its own commit. -/
def validSchedules : List (List CStep) :=
  [[.l1, .c1, .l2, .c2], [.l1, .l2, .c1, .c2], [.l1, .l2, .c2, .c1],
   [.l2, .l1, .c1, .c2], [.l2, .l1, .c2, .c1], [.l2, .c2, .l1, .c1]]

/-! ### Concrete fixtures used by witness theorems and scenario claims -/

/-- A freshly created shared order (spec lifecycle: pledged_qty 0, no
participants). -/
def wOrder : OrderDoc :=
  { oid := "ord1", product_id := "prod1", supplier_id := "sup1",
    min_qty := 500, pledged_qty := 0, deadline := 7, participants := [] }

/-- A one-order store holding the freshly created order. -/
def wStore : Store := [wOrder]

/-- A short request sequence: two valid pledges on the order, one invalid
quantity, one unknown order identifier. -/
def wReqs : List Req :=
  [⟨"ord1", 10, some "Atlas Retail", some "atlas@example.com"⟩,
   ⟨"ord1", 0, some "Nobody", none⟩,
   ⟨"missing", 5, none, none⟩,
   ⟨"ord1", 20, none, none⟩]

/-- The order of the scenario in spec section 8: min_qty 500, pledged_qty
460, participants Gym Chain with 300 and Boutique with 160 (the seeded
demo order of src/main.py lines 152 to 162). -/
def scenarioOrder : OrderDoc :=
  { oid := "so2", product_id := "prod2", supplier_id := "sup2",
    min_qty := 500, pledged_qty := 460, deadline := 2,
    participants :=
      [[("name", .pvStr "Gym Chain"), ("email", .pvStr "gym@example.com"),
        ("qty", .pvInt 300)],
       [("name", .pvStr "Boutique"), ("email", .pvStr "fashion@example.com"),
        ("qty", .pvInt 160)]] }

/-! ### Basic lemmas about the store primitives -/

theorem findOrder_oid {store : Store} {k : String} {o : OrderDoc}
    (h : findOrder store k = some o) : o.oid = k := by
  induction store with
  | nil => simp [findOrder] at h
  | cons a rest ih =>
      by_cases ha : (a.oid == k) = true
      · have hao : a = o := by simpa [findOrder, ha] using h
        subst hao
        exact eq_of_beq ha
      · exact ih (by simpa [findOrder, ha] using h)

theorem applyPledgeUpdate_oid (o : OrderDoc) (q : Int) (n : String)
    (e : Option String) : (applyPledgeUpdate o q n e).oid = o.oid := rfl

theorem findOrder_updateOne_self (store : Store) (k : String)
    (f : OrderDoc → OrderDoc) (hf : ∀ x, (f x).oid = x.oid) {o : OrderDoc}
    (h : findOrder store k = some o) :
    findOrder (updateOne store k f) k = some (f o) := by
  induction store with
  | nil => simp [findOrder] at h
  | cons a rest ih =>
      by_cases ha : (a.oid == k) = true
      · have hao : a = o := by simpa [findOrder, ha] using h
        subst hao
        have hfa : ((f a).oid == k) = true := by rw [hf a]; exact ha
        simp [updateOne, ha, findOrder, hfa]
      · have h' : findOrder rest k = some o := by simpa [findOrder, ha] using h
        simp [updateOne, ha, findOrder, ih h']

theorem findOrder_updateOne_other (store : Store) (k k' : String)
    (f : OrderDoc → OrderDoc) (hf : ∀ x, (f x).oid = x.oid) (hne : k' ≠ k) :
    findOrder (updateOne store k f) k' = findOrder store k' := by
  induction store with
  | nil => rfl
  | cons a rest ih =>
      by_cases ha : (a.oid == k) = true
      · have hak : a.oid = k := eq_of_beq ha
        have ha' : ¬ ((a.oid == k') = true) := by
          intro hkk
          exact hne ((eq_of_beq hkk).symm.trans hak)
        have hfa' : ¬ (((f a).oid == k') = true) := by
          rw [hf a]; exact ha'
        simp [updateOne, ha, findOrder, ha', hfa']
      · simp [updateOne, ha, findOrder, ih]

theorem updateOne_eq_set (store : Store) (k : String) (f : OrderDoc → OrderDoc)
    {o : OrderDoc} (h : findOrder store k = some o) :
    ∃ i, store[i]? = some o ∧ updateOne store k f = store.set i (f o) := by
  induction store with
  | nil => simp [findOrder] at h
  | cons a rest ih =>
      by_cases ha : (a.oid == k) = true
      · have hao : a = o := by simpa [findOrder, ha] using h
        subst hao
        exact ⟨0, by simp, by simp [updateOne, ha]⟩
      · have h' : findOrder rest k = some o := by simpa [findOrder, ha] using h
        obtain ⟨i, h1, h2⟩ := ih h'
        exact ⟨i + 1, by simpa using h1, by simp [updateOne, ha, h2]⟩

/-! ### Lemmas characterizing the pledge endpoint on each input class -/

theorem pledge_invalid (store : Store) (orderId : String)
    (name email : Option String) (qty : Int) (hq : qty < 1) :
    pledge_to_shared_order store orderId qty name email =
      (store, .error .invalidArgument) := by
  simp [pledge_to_shared_order, hq]

theorem pledge_raises (store : Store) (orderId : String) (qty : Int)
    (name email : Option String) (hq : 1 ≤ qty) :
    pledge_to_shared_order store orderId qty name email =
      (store, .error .uncaughtAttributeError) := by
  simp [pledge_to_shared_order, not_lt.mpr hq]

theorem pledge_never_ok (store : Store) (orderId : String) (qty : Int)
    (name email : Option String) :
    (pledge_to_shared_order store orderId qty name email).1 = store ∧
    ∃ e, (pledge_to_shared_order store orderId qty name email).2 =
      .error e := by
  by_cases hq : qty < 1
  · simp [pledge_invalid store orderId name email qty hq]
  · simp [pledge_raises store orderId qty name email (by omega)]

theorem pledgeIntended_invalid (store : Store) (orderId : String)
    (name email : Option String) (qty : Int) (hq : qty < 1) :
    pledgeIntended store orderId qty name email =
      (store, .error .invalidArgument) := by
  simp [pledgeIntended, hq]

theorem pledgeIntended_notFound (store : Store) (orderId : String)
    (qty : Int) (name email : Option String)
    (h : findOrder store orderId = none) (hq : 1 ≤ qty) :
    pledgeIntended store orderId qty name email =
      (store, .error .notFound) := by
  simp [pledgeIntended, pledgeHandlerRest, h, not_lt.mpr hq]

theorem pledgeIntended_ok (store : Store) (orderId : String) (qty : Int)
    (name email : Option String) (o : OrderDoc)
    (h : findOrder store orderId = some o) (hq : 1 ≤ qty) :
    pledgeIntended store orderId qty name email =
      (updateOne store orderId
        (fun x => applyPledgeUpdate x qty (name.getD "Guest") email),
       .ok (stripId (orderDoc (applyPledgeUpdate o qty (name.getD "Guest") email)))) := by
  have hoid : o.oid = orderId := findOrder_oid h
  have hupd : findOrder
      (updateOne store orderId
        (fun x => applyPledgeUpdate x qty (name.getD "Guest") email)) orderId =
      some (applyPledgeUpdate o qty (name.getD "Guest") email) :=
    findOrder_updateOne_self store orderId
      (fun x => applyPledgeUpdate x qty (name.getD "Guest") email)
      (fun _ => rfl) h
  simp [pledgeIntended, pledgeHandlerRest, h, hoid, hupd, not_lt.mpr hq]

/-! ### Evaluation lemmas for participant documents and serialization -/

theorem pLookup_mkParticipant_qty (n : String) (e : Option String) (q : Int) :
    pLookup (mkParticipant n e q) "qty" = some (.pvInt q) := rfl

theorem pLookup_mkParticipant_name (n : String) (e : Option String) (q : Int) :
    pLookup (mkParticipant n e q) "name" = some (.pvStr n) := rfl

theorem pLookup_mkParticipant_email_none (n : String) (q : Int) :
    pLookup (mkParticipant n none q) "email" = some .pvNull := rfl

theorem mkParticipant_keys (n : String) (e : Option String) (q : Int) :
    (mkParticipant n e q).map Prod.fst = ["name", "email", "qty"] := rfl

theorem pledgedSum_append (ps : List PDoc) (n : String) (e : Option String)
    (q : Int) :
    pledgedSum (ps ++ [mkParticipant n e q]) = pledgedSum ps + q := by
  simp [pledgedSum, pLookup_mkParticipant_qty]

theorem stripId_orderDoc (o : OrderDoc) :
    stripId (orderDoc o) =
      [("product_id", .vStr o.product_id), ("supplier_id", .vStr o.supplier_id),
       ("min_qty", .vInt o.min_qty), ("pledged_qty", .vInt o.pledged_qty),
       ("deadline", .vInt o.deadline), ("participants", .vArr o.participants),
       ("id", .vStr o.oid)] := rfl

theorem lookupVal_stripId_id (o : OrderDoc) :
    lookupVal (stripId (orderDoc o)) "id" = some (.vStr o.oid) := rfl

theorem lookupVal_stripId_underscore_id (o : OrderDoc) :
    lookupVal (stripId (orderDoc o)) "_id" = none := rfl

theorem lookupVal_stripId_pledged (o : OrderDoc) :
    lookupVal (stripId (orderDoc o)) "pledged_qty" =
      some (.vInt o.pledged_qty) := rfl

theorem lookupVal_stripId_participants (o : OrderDoc) :
    lookupVal (stripId (orderDoc o)) "participants" =
      some (.vArr o.participants) := rfl

/-! ### The ledger invariant along a run of pledge requests under the
intended semantics -/

theorem runPledgesIntended_inv (reqs : List Req) (store : Store)
    (k : String)
    (o : OrderDoc) (h : findOrder store k = some o)
    (hinv : o.pledged_qty = pledgedSum o.participants) :
    ∃ o', findOrder (runPledgesIntended store reqs) k = some o' ∧
      o'.pledged_qty = pledgedSum o'.participants ∧
      o'.participants.length =
        o.participants.length + countSuccessesIntended store k reqs := by
  induction reqs generalizing store o with
  | nil => exact ⟨o, h, hinv,
      by simp [runPledgesIntended, countSuccessesIntended]⟩
  | cons r rs ih =>
      by_cases hq : r.qty < 1
      · have he := pledgeIntended_invalid store r.orderId r.name r.email
          r.qty hq
        obtain ⟨o', h1, h2, h3⟩ := ih store o h hinv
        exact ⟨o', by simpa [runPledgesIntended, he] using h1, h2,
          by simpa [countSuccessesIntended, he] using h3⟩
      · have hq' : 1 ≤ r.qty := by omega
        cases hfind : findOrder store r.orderId with
        | none =>
            have he := pledgeIntended_notFound store r.orderId r.qty r.name
              r.email hfind hq'
            obtain ⟨o', h1, h2, h3⟩ := ih store o h hinv
            exact ⟨o', by simpa [runPledgesIntended, he] using h1, h2,
              by simpa [countSuccessesIntended, he] using h3⟩
        | some o₀ =>
            have he := pledgeIntended_ok store r.orderId r.qty r.name
              r.email o₀ hfind hq'
            by_cases hk : r.orderId = k
            · subst hk
              have hoo : o₀ = o := by rw [hfind] at h; exact Option.some.inj h
              subst hoo
              have hupd : findOrder
                  (updateOne store r.orderId
                    (fun x => applyPledgeUpdate x r.qty (r.name.getD "Guest")
                      r.email)) r.orderId =
                  some (applyPledgeUpdate o₀ r.qty (r.name.getD "Guest")
                    r.email) :=
                findOrder_updateOne_self store r.orderId
                  (fun x => applyPledgeUpdate x r.qty (r.name.getD "Guest")
                    r.email) (fun _ => rfl) hfind
              have hinv' : (applyPledgeUpdate o₀ r.qty (r.name.getD "Guest")
                  r.email).pledged_qty =
                  pledgedSum (applyPledgeUpdate o₀ r.qty (r.name.getD "Guest")
                    r.email).participants := by
                simp [applyPledgeUpdate, pledgedSum_append, hinv]
              obtain ⟨o', h1, h2, h3⟩ := ih _ _ hupd hinv'
              refine ⟨o', by simpa [runPledgesIntended, he] using h1, h2, ?_⟩
              have hlen : (applyPledgeUpdate o₀ r.qty (r.name.getD "Guest")
                  r.email).participants.length =
                  o₀.participants.length + 1 := by
                simp [applyPledgeUpdate]
              rw [hlen] at h3
              simpa [countSuccessesIntended, he, Nat.add_comm, Nat.add_assoc,
                Nat.add_left_comm] using h3
            · have hupd : findOrder
                  (updateOne store r.orderId
                    (fun x => applyPledgeUpdate x r.qty (r.name.getD "Guest")
                      r.email)) k = findOrder store k :=
                findOrder_updateOne_other store r.orderId k
                  (fun x => applyPledgeUpdate x r.qty (r.name.getD "Guest")
                    r.email) (fun _ => rfl) (fun hkk => hk hkk.symm)
              obtain ⟨o', h1, h2, h3⟩ := ih _ _ (hupd.trans h) hinv
              have hbeq : ¬ ((r.orderId == k) = true) := by
                intro hkk; exact hk (eq_of_beq hkk)
              exact ⟨o', by simpa [runPledgesIntended, he] using h1, h2,
                by simpa [countSuccessesIntended, he, hbeq] using h3⟩

/-! ### Step lemmas for the interleaving model -/

theorem cstep_store_fixed (k n1 n2 : String) (e1 e2 : Option String)
    (s : Store) (c : CStep) :
    cstep k n1 n2 e1 e2 ⟨s, none, none⟩ c = ⟨s, none, none⟩ := by
  cases c <;> rfl

theorem cstepIntended_l1 (k n1 n2 : String) (e1 e2 : Option String)
    (s : Store)
    (r1 r2 : Option String) (x : OrderDoc) (h : findOrder s k = some x)
    (hx : x.oid = k) :
    cstepIntended k n1 n2 e1 e2 ⟨s, r1, r2⟩ .l1 = ⟨s, some k, r2⟩ := by
  simp [cstepIntended, h, hx]

theorem cstepIntended_l2 (k n1 n2 : String) (e1 e2 : Option String)
    (s : Store)
    (r1 r2 : Option String) (x : OrderDoc) (h : findOrder s k = some x)
    (hx : x.oid = k) :
    cstepIntended k n1 n2 e1 e2 ⟨s, r1, r2⟩ .l2 = ⟨s, r1, some k⟩ := by
  simp [cstepIntended, h, hx]

theorem cstepIntended_c1 (k n1 n2 : String) (e1 e2 : Option String)
    (s : Store)
    (r2 : Option String) :
    cstepIntended k n1 n2 e1 e2 ⟨s, some k, r2⟩ .c1 =
      ⟨updateOne s k (fun o => applyPledgeUpdate o 10 n1 e1), some k, r2⟩ := by
  simp [cstepIntended]

theorem cstepIntended_c2 (k n1 n2 : String) (e1 e2 : Option String)
    (s : Store)
    (r1 : Option String) :
    cstepIntended k n1 n2 e1 e2 ⟨s, r1, some k⟩ .c2 =
      ⟨updateOne s k (fun o => applyPledgeUpdate o 20 n2 e2), r1, some k⟩ := by
  simp [cstepIntended]

/-! ### Supporting results: the unreachable handler remainder satisfies
the claimed pledge semantics -/

theorem runPledgesIntended_ledger_invariant (store : Store)
    (reqs : List Req)
    (k : String) (o : OrderDoc) (h : findOrder store k = some o)
    (h0 : o.pledged_qty = 0) (hp : o.participants = []) :
    ∃ o', findOrder (runPledgesIntended store reqs) k = some o' ∧
      o'.pledged_qty = pledgedSum o'.participants ∧
      o'.participants.length = countSuccessesIntended store k reqs := by
  obtain ⟨o', h1, h2, h3⟩ := runPledgesIntended_inv reqs store k o h
    (by simp [h0, hp, pledgedSum])
  exact ⟨o', h1, h2, by simpa [hp] using h3⟩

theorem pledgeIntended_scenario :
    ∃ s' d, pledgeIntended [scenarioOrder] "so2" 50
        (some "NewBuyer") none = (s', .ok d) ∧
      lookupVal d "pledged_qty" = some (.vInt 510) ∧
      (∃ ps, lookupVal d "participants" = some (.vArr ps) ∧
        ps.length = 3 ∧
        ps.getLast? = some (mkParticipant "NewBuyer" none 50)) := by
  refine ⟨_, _, rfl, rfl, ⟨_, rfl, rfl, rfl⟩⟩

/-! ### The claims -/

/-- Claim C1: the claim asserts that after every successful pledge the
order's pledged_qty equals the sum of participant qty values and that the
participant count equals the number of successful pledge calls since
creation.  The program has no successful pledge calls at all: every
request that passes validation dies in the uncaught AttributeError of
line 225, so every run of requests leaves the store untouched and the
success count of every order is zero.  (The intended semantics of the
unreachable lines 226 to 238 does satisfy the claimed accounting, see
`runPledgesIntended_ledger_invariant`.) -/
theorem claim_C1_no_success_run (store : Store) (reqs : List Req)
    (k : String) :
    runPledges store reqs = store ∧ countSuccesses store k reqs = 0 := by
  induction reqs with
  | nil => exact ⟨rfl, rfl⟩
  | cons r rs ih =>
      obtain ⟨hrun, hcount⟩ := ih
      by_cases hq : r.qty < 1
      · have he := pledge_invalid store r.orderId r.name r.email r.qty hq
        exact ⟨by simpa [runPledges, he] using hrun,
          by simpa [countSuccesses, he] using hcount⟩
      · have he := pledge_raises store r.orderId r.qty r.name r.email
          (by omega)
        exact ⟨by simpa [runPledges, he] using hrun,
          by simpa [countSuccesses, he] using hcount⟩

/-- Claim C2: the claim asserts that a pledge on an existing order with
qty at least 1 succeeds and returns the updated record.  In the program
every such pledge dies in the uncaught AttributeError of line 225 before
any lookup or update and surfaces as HTTP 500: here, on a store holding
the target order (findOrder resolves it), the pledge of qty 10 returns
the uncaught-exception outcome with the store unchanged.  (The
unreachable handler remainder does satisfy the claimed success behavior,
see `pledgeIntended_ok`.) -/
theorem claim_C2_pledge_raises :
    findOrder wStore "ord1" = some wOrder ∧
    pledge_to_shared_order wStore "ord1" 10 (some "Atlas Retail") none =
      (wStore, .error .uncaughtAttributeError) ∧
    statusOf .uncaughtAttributeError = 500 :=
  ⟨rfl, rfl, rfl⟩

/-- Claim C3: the claim asserts that a pledge against an unresolvable
order identifier fails with NotFound (HTTP 404) and no side effects.  In
the program the request dies in the uncaught AttributeError of line 225
before the 404 on line 234 can be reached, surfacing as HTTP 500, not
404; no document is created or modified either way.  (The unreachable
handler remainder does answer 404 there, see `pledgeIntended_notFound`.) -/
theorem claim_C3_unknown_id_raises :
    findOrder wStore "missing" = none ∧
    pledge_to_shared_order wStore "missing" 5 none none =
      (wStore, .error .uncaughtAttributeError) ∧
    statusOf .uncaughtAttributeError = 500 ∧
    statusOf .notFound = 404 :=
  ⟨rfl, rfl, rfl, rfl⟩

/-- Claim C4: a pledge with qty zero or negative is rejected by the HTTP
layer validation with InvalidArgument (HTTP 422) and the store, hence the
target order, is left unmodified. -/
theorem claim_C4_invalid_qty (store : Store) (orderId : String)
    (name email : Option String) (qty : Int) (hq : qty ≤ 0) :
    pledge_to_shared_order store orderId qty name email =
      (store, .error .invalidArgument) ∧ statusOf .invalidArgument = 422 :=
  ⟨pledge_invalid store orderId name email qty (by omega), rfl⟩

/-- Witness for claim C4 on a concrete store and qty 0. -/
theorem claim_C4_witness :
    pledge_to_shared_order wStore "ord1" 0 (some "Nobody") none =
      (wStore, .error .invalidArgument) ∧ statusOf .invalidArgument = 422 :=
  claim_C4_invalid_qty wStore "ord1" (some "Nobody") none 0 (by decide)

/-- Claim C5: the claim asserts that pledging qty 50 as NewBuyer on the
scenario order (min_qty 500, pledged_qty 460, two participants) yields
pledged_qty 510 and three participants.  In the program the request dies
in the uncaught AttributeError of line 225: the call returns the
uncaught-exception outcome, the store is unchanged and the scenario order
keeps pledged_qty 460 and its two participants.  (The unreachable handler
remainder does produce 510 and three participants there, see
`pledgeIntended_scenario`.) -/
theorem claim_C5_scenario_raises :
    pledge_to_shared_order [scenarioOrder] "so2" 50 (some "NewBuyer")
      none = ([scenarioOrder], .error .uncaughtAttributeError) ∧
    statusOf .uncaughtAttributeError = 500 ∧
    scenarioOrder.pledged_qty = 460 ∧
    scenarioOrder.participants.length = 2 :=
  ⟨rfl, rfl, rfl, rfl⟩

/-- Under the intended semantics, two concurrent pledges of qty 10 and
qty 20 on the same order starting at pledged_qty 0, under every
interleaving of their lookup and commit steps in which each lookup
precedes its own commit, end with pledged_qty 30 and both participant
entries present, in either relative order: the single combined increment
and append update written on line 235 would never lose a pledge. -/
theorem crunIntended_concurrent (store : Store) (k n1 n2 : String)
    (e1 e2 : Option String) (o : OrderDoc) (sched : List CStep)
    (h : findOrder store k = some o) (h0 : o.pledged_qty = 0)
    (hs : sched ∈ validSchedules) :
    ∃ o', findOrder (crunIntended k n1 n2 e1 e2 ⟨store, none, none⟩ sched).store k =
        some o' ∧
      o'.pledged_qty = 30 ∧
      mkParticipant n1 e1 10 ∈ o'.participants ∧
      mkParticipant n2 e2 20 ∈ o'.participants := by
  have hoid := findOrder_oid h
  have h1 : findOrder (updateOne store k
      (fun x => applyPledgeUpdate x 10 n1 e1)) k =
      some (applyPledgeUpdate o 10 n1 e1) :=
    findOrder_updateOne_self store k
      (fun x => applyPledgeUpdate x 10 n1 e1) (fun _ => rfl) h
  have h2 : findOrder (updateOne store k
      (fun x => applyPledgeUpdate x 20 n2 e2)) k =
      some (applyPledgeUpdate o 20 n2 e2) :=
    findOrder_updateOne_self store k
      (fun x => applyPledgeUpdate x 20 n2 e2) (fun _ => rfl) h
  have h12 : findOrder (updateOne (updateOne store k
      (fun x => applyPledgeUpdate x 10 n1 e1)) k
      (fun x => applyPledgeUpdate x 20 n2 e2)) k =
      some (applyPledgeUpdate (applyPledgeUpdate o 10 n1 e1) 20 n2 e2) :=
    findOrder_updateOne_self _ k
      (fun x => applyPledgeUpdate x 20 n2 e2) (fun _ => rfl) h1
  have h21 : findOrder (updateOne (updateOne store k
      (fun x => applyPledgeUpdate x 20 n2 e2)) k
      (fun x => applyPledgeUpdate x 10 n1 e1)) k =
      some (applyPledgeUpdate (applyPledgeUpdate o 20 n2 e2) 10 n1 e1) :=
    findOrder_updateOne_self _ k
      (fun x => applyPledgeUpdate x 10 n1 e1) (fun _ => rfl) h2
  have hq12 : (applyPledgeUpdate (applyPledgeUpdate o 10 n1 e1) 20 n2
      e2).pledged_qty = 30 := by
    simp [applyPledgeUpdate, h0]
  have hq21 : (applyPledgeUpdate (applyPledgeUpdate o 20 n2 e2) 10 n1
      e1).pledged_qty = 30 := by
    simp [applyPledgeUpdate, h0]
  have hm112 : mkParticipant n1 e1 10 ∈ (applyPledgeUpdate
      (applyPledgeUpdate o 10 n1 e1) 20 n2 e2).participants := by
    simp [applyPledgeUpdate]
  have hm212 : mkParticipant n2 e2 20 ∈ (applyPledgeUpdate
      (applyPledgeUpdate o 10 n1 e1) 20 n2 e2).participants := by
    simp [applyPledgeUpdate]
  have hm121 : mkParticipant n1 e1 10 ∈ (applyPledgeUpdate
      (applyPledgeUpdate o 20 n2 e2) 10 n1 e1).participants := by
    simp [applyPledgeUpdate]
  have hm221 : mkParticipant n2 e2 20 ∈ (applyPledgeUpdate
      (applyPledgeUpdate o 20 n2 e2) 10 n1 e1).participants := by
    simp [applyPledgeUpdate]
  simp only [validSchedules, List.mem_cons, List.not_mem_nil, or_false] at hs
  rcases hs with rfl | rfl | rfl | rfl | rfl | rfl
  · simp only [crunIntended, List.foldl_cons, List.foldl_nil]
    rw [cstepIntended_l1 k n1 n2 e1 e2 store none none o h hoid,
        cstepIntended_c1 k n1 n2 e1 e2 store none,
        cstepIntended_l2 k n1 n2 e1 e2 _ (some k) none
          (applyPledgeUpdate o 10 n1 e1) h1 hoid,
        cstepIntended_c2 k n1 n2 e1 e2 _ (some k)]
    exact ⟨_, h12, hq12, hm112, hm212⟩
  · simp only [crunIntended, List.foldl_cons, List.foldl_nil]
    rw [cstepIntended_l1 k n1 n2 e1 e2 store none none o h hoid,
        cstepIntended_l2 k n1 n2 e1 e2 store (some k) none o h hoid,
        cstepIntended_c1 k n1 n2 e1 e2 store (some k),
        cstepIntended_c2 k n1 n2 e1 e2 _ (some k)]
    exact ⟨_, h12, hq12, hm112, hm212⟩
  · simp only [crunIntended, List.foldl_cons, List.foldl_nil]
    rw [cstepIntended_l1 k n1 n2 e1 e2 store none none o h hoid,
        cstepIntended_l2 k n1 n2 e1 e2 store (some k) none o h hoid,
        cstepIntended_c2 k n1 n2 e1 e2 store (some k),
        cstepIntended_c1 k n1 n2 e1 e2 _ (some k)]
    exact ⟨_, h21, hq21, hm121, hm221⟩
  · simp only [crunIntended, List.foldl_cons, List.foldl_nil]
    rw [cstepIntended_l2 k n1 n2 e1 e2 store none none o h hoid,
        cstepIntended_l1 k n1 n2 e1 e2 store none (some k) o h hoid,
        cstepIntended_c1 k n1 n2 e1 e2 store (some k),
        cstepIntended_c2 k n1 n2 e1 e2 _ (some k)]
    exact ⟨_, h12, hq12, hm112, hm212⟩
  · simp only [crunIntended, List.foldl_cons, List.foldl_nil]
    rw [cstepIntended_l2 k n1 n2 e1 e2 store none none o h hoid,
        cstepIntended_l1 k n1 n2 e1 e2 store none (some k) o h hoid,
        cstepIntended_c2 k n1 n2 e1 e2 store (some k),
        cstepIntended_c1 k n1 n2 e1 e2 _ (some k)]
    exact ⟨_, h21, hq21, hm121, hm221⟩
  · simp only [crunIntended, List.foldl_cons, List.foldl_nil]
    rw [cstepIntended_l2 k n1 n2 e1 e2 store none none o h hoid,
        cstepIntended_c2 k n1 n2 e1 e2 store none,
        cstepIntended_l1 k n1 n2 e1 e2 _ none (some k)
          (applyPledgeUpdate o 20 n2 e2) h2 hoid,
        cstepIntended_c1 k n1 n2 e1 e2 _ (some k)]
    exact ⟨_, h21, hq21, hm121, hm221⟩

/-- Claim C6: the claim asserts that two concurrent pledges of qty 10 and
qty 20 on an order with pledged_qty 0 always end with pledged_qty 30 and
both entries present.  In the program each request raises the uncaught
AttributeError of line 225 during its lookup phase and its commit never
executes, so under every schedule of the two requests (the valid
interleavings included) the store is left exactly as it started: the
order keeps pledged_qty 0, not 30, and gains no entries.  (The single
combined update written on line 235 would be atomic and lose no pledge if
it were reachable, see `crunIntended_concurrent`.) -/
theorem claim_C6_no_commit (store : Store) (k n1 n2 : String)
    (e1 e2 : Option String) (sched : List CStep) :
    (crun k n1 n2 e1 e2 ⟨store, none, none⟩ sched).store = store := by
  induction sched with
  | nil => rfl
  | cons c cs ih =>
      show (List.foldl (cstep k n1 n2 e1 e2) ⟨store, none, none⟩
        (c :: cs)).store = store
      rw [List.foldl_cons, cstep_store_fixed]
      exact ih

/-- Claim C7: listing shared orders returns one item per stored order, in
store order, each item the serialized order with the internal store
identifier removed and the external id field set to its string form; the
operation reads the store and issues no write. -/
theorem claim_C7_list_orders (store : Store) (i : Nat)
    (hi : i < store.length) :
    (list_shared_orders store).length = store.length ∧
    (list_shared_orders store)[i]? = some (stripId (orderDoc store[i])) ∧
    lookupVal (stripId (orderDoc store[i])) "id" =
      some (.vStr store[i].oid) ∧
    lookupVal (stripId (orderDoc store[i])) "_id" = none := by
  refine ⟨by simp [list_shared_orders], ?_, lookupVal_stripId_id _,
    lookupVal_stripId_underscore_id _⟩
  simp [list_shared_orders, List.getElem?_map, List.getElem?_eq_getElem, hi]

/-- Witness for claim C7 on a concrete one-order store. -/
theorem claim_C7_witness :
    0 < wStore.length ∧
    ((list_shared_orders wStore).length = wStore.length ∧
     (list_shared_orders wStore)[0]? = some (stripId (orderDoc wOrder)) ∧
     lookupVal (stripId (orderDoc wOrder)) "id" = some (.vStr wOrder.oid) ∧
     lookupVal (stripId (orderDoc wOrder)) "_id" = none) :=
  ⟨by decide, claim_C7_list_orders wStore 0 (by decide)⟩

/-- Under the intended semantics, a pledge with the name argument absent
appends a participant entry whose name field is the placeholder Guest
(the Query default on line 222). -/
theorem pledgeIntended_default_name (store : Store) (orderId : String)
    (qty : Int) (email : Option String) (o : OrderDoc)
    (h : findOrder store orderId = some o) (hq : 1 ≤ qty) :
    ∃ s', pledgeIntended store orderId qty none email =
      (s', .ok (stripId (orderDoc (applyPledgeUpdate o qty "Guest"
        email)))) ∧
      (applyPledgeUpdate o qty "Guest" email).participants.getLast? =
        some (mkParticipant "Guest" email qty) ∧
      pLookup (mkParticipant "Guest" email qty) "name" =
        some (.pvStr "Guest") := by
  refine ⟨_, pledgeIntended_ok store orderId qty none email o h hq, ?_,
    pLookup_mkParticipant_name _ _ _⟩
  simp [applyPledgeUpdate, List.getLast?_concat]

/-- Claim C8: the claim asserts that a pledge call with the name argument
absent appends a participant entry named Guest.  In the program no pledge
call ever appends an entry: the request dies in the uncaught
AttributeError of line 225; here the call with name absent on a store
holding the target order returns the uncaught-exception outcome with the
store, and hence the empty participant list of the order, unchanged.
(The unreachable handler remainder does append the Guest entry, see
`pledgeIntended_default_name`.) -/
theorem claim_C8_no_append :
    findOrder wStore "ord1" = some wOrder ∧
    pledge_to_shared_order wStore "ord1" 5 none none =
      (wStore, .error .uncaughtAttributeError) ∧
    wOrder.participants = [] :=
  ⟨rfl, rfl, rfl⟩

/-- Under the intended semantics, a successful pledge replaces exactly
one stored document, the target order, leaving its min_qty, deadline,
product_id, supplier_id and identifier unchanged, appending the one new
entry at the end of its participants with every pre-existing entry in
place, and leaving every other position of the store untouched. -/
theorem pledgeIntended_frame (store : Store) (orderId : String) (qty : Int)
    (name email : Option String) (o : OrderDoc)
    (h : findOrder store orderId = some o) (hq : 1 ≤ qty) :
    ∃ i s', pledgeIntended store orderId qty name email =
        (s', .ok (stripId (orderDoc (applyPledgeUpdate o qty
          (name.getD "Guest") email)))) ∧
      store[i]? = some o ∧
      s' = store.set i (applyPledgeUpdate o qty (name.getD "Guest")
        email) ∧
      (∀ j, j ≠ i → s'[j]? = store[j]?) ∧
      (applyPledgeUpdate o qty (name.getD "Guest") email).min_qty =
        o.min_qty ∧
      (applyPledgeUpdate o qty (name.getD "Guest") email).deadline =
        o.deadline ∧
      (applyPledgeUpdate o qty (name.getD "Guest") email).product_id =
        o.product_id ∧
      (applyPledgeUpdate o qty (name.getD "Guest") email).supplier_id =
        o.supplier_id ∧
      (applyPledgeUpdate o qty (name.getD "Guest") email).oid = o.oid ∧
      (applyPledgeUpdate o qty (name.getD "Guest") email).participants =
        o.participants ++ [mkParticipant (name.getD "Guest") email qty] := by
  obtain ⟨i, h1, h2⟩ := updateOne_eq_set store orderId
    (fun x => applyPledgeUpdate x qty (name.getD "Guest") email) h
  refine ⟨i, _, pledgeIntended_ok store orderId qty name email o h hq,
    h1, h2,
    ?_, rfl, rfl, rfl, rfl, rfl, rfl⟩
  intro j hj
  rw [h2]
  exact List.getElem?_set_ne (fun hij => hj hij.symm)

/-- Claim C9: the claim asserts that a successful pledge changes only the
pledged_qty and participants of the target order and touches no other
document.  In the program no pledge call writes the store at all: every
call either fails validation with 422 or dies in the uncaught
AttributeError of line 225, and in both cases the returned store is the
input store, so there is no successful pledge whose frame could be
observed.  (The unreachable handler remainder does perform exactly the
claimed single-position update, see `pledgeIntended_frame`.) -/
theorem claim_C9_store_never_written (store : Store) (orderId : String)
    (qty : Int) (name email : Option String) :
    (pledge_to_shared_order store orderId qty name email).1 = store := by
  by_cases hq : qty < 1
  · simp [pledge_invalid store orderId name email qty hq]
  · simp [pledge_raises store orderId qty name email (by omega)]

/-- Under the intended semantics, every participant record appended by a
pledge has exactly the three fields name, email and qty, in that order,
and an absent email is recorded as an explicit null field. -/
theorem pledgeIntended_email_field (store : Store) (orderId : String)
    (qty : Int) (name email : Option String) (o : OrderDoc)
    (h : findOrder store orderId = some o) (hq : 1 ≤ qty) :
    ∃ s', pledgeIntended store orderId qty name email =
      (s', .ok (stripId (orderDoc (applyPledgeUpdate o qty
        (name.getD "Guest") email)))) ∧
      (applyPledgeUpdate o qty (name.getD "Guest")
        email).participants.getLast? =
        some (mkParticipant (name.getD "Guest") email qty) ∧
      (mkParticipant (name.getD "Guest") email qty).map Prod.fst =
        ["name", "email", "qty"] ∧
      (email = none →
        pLookup (mkParticipant (name.getD "Guest") email qty) "email" =
          some .pvNull) := by
  refine ⟨_, pledgeIntended_ok store orderId qty name email o h hq, ?_,
    mkParticipant_keys _ _ _, ?_⟩
  · simp [applyPledgeUpdate, List.getLast?_concat]
  · rintro rfl
    exact pLookup_mkParticipant_email_none _ _

/-- Claim C10: the claim asserts that the participant record appended by
a pledge always has exactly the fields name, email and qty, with an
absent email present as null.  In the program no participant record is
ever appended: the push on line 235 is unreachable behind the uncaught
AttributeError of line 225; here the call with email absent on a store
holding the target order returns the uncaught-exception outcome with the
store unchanged and the order still without participants, while the dict
literal the handler would push does have exactly those three fields with
a null email (see also `pledgeIntended_email_field`). -/
theorem claim_C10_no_push :
    pledge_to_shared_order wStore "ord1" 20 none none =
      (wStore, .error .uncaughtAttributeError) ∧
    wOrder.participants = [] ∧
    (mkParticipant "Guest" none 20).map Prod.fst =
      ["name", "email", "qty"] ∧
    pLookup (mkParticipant "Guest" none 20) "email" = some .pvNull :=
  ⟨rfl, rfl, rfl, rfl⟩

end SupplyLink
